import Mathlib

/-!
Authorization resolver of `engine/api/router_middleware_auth_permission.go`

A shallow embedding of the permission registry (`permissionFunc`), the resolver
(`checkPermission`), the grant loader (`loadPermissionsByGroupID`) and the capability
checkers, followed by theorems about them.

Conventions of the embedding

* A Go `error` result is an `Option Err` (`none` is `nil`).
* A Go `map[string]string` of route variables is a `List (String × String)`: the list is
  the order in which `range` visits the entries; indexing `m[k]` is `getVar`, which yields
  the zero value `""` for a missing key.
* A variadic `groupID ...int64` is a `List Int`.
* Calls into the persistence and identity collaborators are functions held in `API`; every
  function of the embedding returns a `Run`, the list of collaborator and checker calls it
  performed, in order, together with its Go result.
-/

namespace Cds

/-! ## Errors -/

/-- Modelled from the spec: the error taxonomy of section 7 (`sdk.ErrForbidden`,
`sdk.ErrWrongRequest`, `sdk.ErrNotFound`, which are declared in package `sdk`), and
`Storage` for an opaque failure of a collaborator. -/
inductive ErrKind where
  | Forbidden
  | WrongRequest
  | NotFound
  | Storage
  deriving DecidableEq, Repr

/-- Modelled from the spec: an error value, a kind of the taxonomy together with its
message. -/
structure Err where
  kind : ErrKind
  msg : String
  deriving DecidableEq, Repr

/-- Modelled from the spec: `sdk.WrapError(err, format, args...)`, an error of the kind of
`err` carrying the formatted message (the caller passes the message already formatted). -/
def WrapError (kind : ErrKind) (msg : String) : Err := ⟨kind, msg⟩

/-- Modelled from the spec: `sdk.WithStack(err)`, the error `err` itself with a stack
attached; it carries no message of its own. -/
def WithStack (kind : ErrKind) : Err := ⟨kind, ""⟩

/-! ## Data model -/

/-- Modelled from the spec: the relation of a caller to a group, section 3 ("one of
non-member, member, admin; admin implies member"). -/
inductive Role where
  | nonMember
  | member
  | admin
  deriving DecidableEq, Repr

/-- Modelled from the spec: `sdk.User`, the caller's identity. -/
structure User where
  ID : Int
  deriving DecidableEq, Repr

/-- Modelled from the spec: `sdk.Group`, a group with its identifier, its name and its
membership roster (user identifier and role). -/
structure Group where
  ID : Int
  Name : String
  Roster : List (Int × Role)
  deriving DecidableEq, Repr

/-- Modelled from the spec: a workflow template, identified by (group identifier, slug). -/
structure WorkflowTemplate where
  GroupID : Int
  Slug : String
  deriving DecidableEq, Repr

/-- Modelled from the spec: `sdk.GroupPermissions`; `Projects` holds the project grants
`(project key, level)` the persistence query returned. -/
structure GroupPermissions where
  Projects : List (String × Int)
  deriving DecidableEq, Repr

/-- Modelled from the spec: `GroupPermissions.ProjectPermission(key)`, declared in package
`sdk`. It answers whether a grant exists for `key` and, when several grants name the key,
surfaces the maximum level (section 3, Group Permission Set). -/
def GroupPermissions.ProjectPermission (perms : GroupPermissions) (key : String) : Int × Bool :=
  match (perms.Projects.filter (fun g => g.1 == key)).map (fun g => g.2) with
  | [] => (0, false)
  | l :: ls => (ls.foldl max l, true)

/-- Modelled from the spec: the role of user `u` in group `g`, read from the roster; a
user the roster does not list is a non-member. -/
def Group.roleOf (g : Group) (u : User) : Role :=
  (g.Roster.lookup u.ID).getD Role.nonMember

/-- Modelled from the spec: `group.CheckUserIsGroupAdmin(g, u)`: succeeds iff the caller is
an admin of the group, otherwise a `Forbidden` denial. -/
def CheckUserIsGroupAdmin (g : Group) (u : User) : Option Err :=
  if g.roleOf u = Role.admin then none
  else some (WrapError ErrKind.Forbidden "group admin required")

/-- Modelled from the spec: `group.CheckUserIsGroupMember(g, u)`: succeeds iff the caller
is at least a member of the group (admin implies member), otherwise a `Forbidden` denial. -/
def CheckUserIsGroupMember (g : Group) (u : User) : Option Err :=
  if g.roleOf u = Role.nonMember then some (WrapError ErrKind.Forbidden "group member required")
  else none

/-- Modelled from the spec: the request context: the groups of the caller's token
(`JWT(ctx).Groups`) and the caller's user (`deprecatedGetUser(ctx)`). -/
structure Context where
  Groups : List Group
  User : User
  deriving DecidableEq, Repr

/-- Modelled from the spec: `sdk.GroupsToIDs`, the identifiers of the given groups. -/
def GroupsToIDs (groups : List Group) : List Int := groups.map (fun g => g.ID)

/-- The collaborators reached through `api`: the three persistence queries. Each either
fails with an error or yields its value. -/
structure API where
  /-- `project.FindPermissionByGroupID(db, groupID...)` -/
  FindPermissionByGroupID : List Int → Except Err (List (String × Int))
  /-- `group.LoadGroup(db, name)` -/
  LoadGroup : String → Except Err Group
  /-- `workflowtemplate.LoadBySlugAndGroupID(db, slug, groupID)`; `none` is a nil template -/
  LoadBySlugAndGroupID : String → Int → Except Err (Option WorkflowTemplate)

/-- Identifiers that the body of `checkTemplateSlugPermissions` uses but that are neither
parameters nor locals of it: `ctx`, `permissionValue` and the constant
`permission.PermissionRead`. -/
structure Free where
  ctx : Context
  permissionValue : Int
  PermissionRead : Int

/-! ## Call traces -/

/-- One call performed during an evaluation. -/
inductive Call where
  | FindPermissionByGroupID (groupID : List Int)
  | LoadGroup (name : String)
  | CheckUserIsGroupAdmin (g : Group) (u : User)
  | CheckUserIsGroupMember (g : Group) (u : User)
  | LoadBySlugAndGroupID (slug : String) (groupID : Int)
  | permFunc (key : String) (value : String)
  deriving DecidableEq, Repr

/-- The calls an evaluation performed, in order, and its result. -/
structure Run (α : Type) where
  calls : List Call
  val : α
  deriving DecidableEq, Repr

/-- Go map indexing `routeVars[name]`: the first binding of `name`, or `""`. -/
def getVar (routeVars : List (String × String)) (name : String) : String :=
  (routeVars.lookup name).getD ""

/-- `PermCheckFunc`: `func(key string, perm int, routeVars map[string]string,
groupID ...int64) error`. -/
abbrev PermCheckFunc := String → Int → List (String × String) → List Int → Run (Option Err)

/-! ## The grant loader and the checkers -/

/-- `loadPermissionsByGroupID`: returns the pair `(grpPerm, err)`. -/
def loadPermissionsByGroupID (api : API) (groupID : List Int) :
    Run (GroupPermissions × Option Err) :=
  let grpPerm : GroupPermissions := ⟨[]⟩
  match api.FindPermissionByGroupID groupID with
  | .error err => ⟨[Call.FindPermissionByGroupID groupID], (grpPerm, some err)⟩
  | .ok projectPermissions =>
    ⟨[Call.FindPermissionByGroupID groupID], ({ grpPerm with Projects := projectPermissions }, none)⟩

/-- `api.checkProjectPermissions` -/
def checkProjectPermissions (api : API) (key : String) (expectedPermissions : Int)
    (_routeVars : List (String × String)) (groupID : List Int) : Run (Option Err) :=
  let r := loadPermissionsByGroupID api groupID
  match r.val with
  | (_, some err) => ⟨r.calls, some err⟩
  | (perms, none) =>
    let (actualPermission, isGranted) := perms.ProjectPermission key
    if isGranted && decide (actualPermission ≥ expectedPermissions) then ⟨r.calls, none⟩
    else ⟨r.calls, some (WrapError ErrKind.Forbidden ("not authorized for project " ++ key))⟩

/-- `api.checkWorkflowPermissions` -/
def checkWorkflowPermissions (workflowName : String) (_perm : Int)
    (_routeVars : List (String × String)) (_groupID : List Int) : Run (Option Err) :=
  ⟨[], some (WrapError ErrKind.Forbidden
    ("not authorized for workflow " ++ workflowName ++ ", missing project key value"))⟩

/-- `api.checkGroupPermissions` -/
def checkGroupPermissions (groupName : String) (_perm : Int)
    (_routeVars : List (String × String)) (_groupID : List Int) : Run (Option Err) :=
  ⟨[], some (WrapError ErrKind.Forbidden ("not authorized for group " ++ groupName))⟩

/-- `api.checkWorkerModelPermissions` -/
def checkWorkerModelPermissions (key : String) (_perm : Int)
    (_routeVars : List (String × String)) (_groupID : List Int) : Run (Option Err) :=
  ⟨[], some (WrapError ErrKind.Forbidden ("not authorized for worker model " ++ key))⟩

/-- `api.checkActionPermissions` -/
def checkActionPermissions (permActionName : String) (_perm : Int)
    (_routeVars : List (String × String)) (_groupID : List Int) : Run (Option Err) :=
  ⟨[], some (WrapError ErrKind.Forbidden ("not authorized for action " ++ permActionName))⟩

/-- `api.checkActionBuiltinPermissions` -/
def checkActionBuiltinPermissions (permActionBuiltinName : String) (_perm : Int)
    (_routeVars : List (String × String)) (_groupID : List Int) : Run (Option Err) :=
  ⟨[], some (WrapError ErrKind.Forbidden ("not authorized for action " ++ permActionBuiltinName))⟩

/-- `api.checkTemplateSlugPermissions`. The parameters `perm` and `groupID` are not used by
the body; the role gate reads the free identifiers `permissionValue` and `ctx`. -/
def checkTemplateSlugPermissions (api : API) (fr : Free) (templateSlug : String) (_perm : Int)
    (routeVars : List (String × String)) (_groupID : List Int) : Run (Option Err) :=
  let groupName := getVar routeVars "groupName"
  if groupName == "" || templateSlug == "" then
    ⟨[], some (WrapError ErrKind.WrongRequest "invalid given group or workflow template slug")⟩
  else
    let u := fr.ctx.User
    match api.LoadGroup groupName with
    | .error err => ⟨[Call.LoadGroup groupName], some err⟩
    | .ok g =>
      let gate : Run (Option Err) :=
        if fr.permissionValue > fr.PermissionRead then
          ⟨[Call.CheckUserIsGroupAdmin g u], CheckUserIsGroupAdmin g u⟩
        else
          ⟨[Call.CheckUserIsGroupMember g u], CheckUserIsGroupMember g u⟩
      match gate.val with
      | some err => ⟨Call.LoadGroup groupName :: gate.calls, some err⟩
      | none =>
        let pre := Call.LoadGroup groupName :: gate.calls ++ [Call.LoadBySlugAndGroupID templateSlug g.ID]
        match api.LoadBySlugAndGroupID templateSlug g.ID with
        | .error err => ⟨pre, some err⟩
        | .ok none => ⟨pre, some (WithStack ErrKind.NotFound)⟩
        | .ok (some _) => ⟨pre, none⟩

/-! ## Registry and resolver -/

/-- `permissionFunc(api)`: the registry, a map literal with seven entries. -/
def permissionFunc (api : API) (fr : Free) : List (String × PermCheckFunc) :=
  [ ("permProjectKey", checkProjectPermissions api),
    ("permWorkflowName", checkWorkflowPermissions),
    ("permGroupName", checkGroupPermissions),
    ("permModelID", checkWorkerModelPermissions),
    ("permActionName", checkActionPermissions),
    ("permActionBuiltinName", checkActionBuiltinPermissions),
    ("permTemplateSlug", checkTemplateSlugPermissions api fr) ]

/-- The `for key, value := range routeVar` loop of `checkPermission`, over the entries
still to visit; `routeVar` is the whole map, handed to every checker. -/
def checkPermissionLoop (api : API) (fr : Free) (routeVar : List (String × String))
    (permission : Int) (groupIDs : List Int) : List (String × String) → Run (Option Err)
  | [] => ⟨[], none⟩
  | (key, value) :: rest =>
    match (permissionFunc api fr).lookup key with
    | some permFunc =>
      let r := permFunc value permission routeVar groupIDs
      match r.val with
      | some err => ⟨Call.permFunc key value :: r.calls, some err⟩
      | none =>
        let r2 := checkPermissionLoop api fr routeVar permission groupIDs rest
        ⟨Call.permFunc key value :: r.calls ++ r2.calls, r2.val⟩
    | none => checkPermissionLoop api fr routeVar permission groupIDs rest

/-- `api.checkPermission` -/
def checkPermission (api : API) (fr : Free) (ctx : Context) (routeVar : List (String × String))
    (permission : Int) : Run (Option Err) :=
  let groupIDs := GroupsToIDs ctx.Groups
  checkPermissionLoop api fr routeVar permission groupIDs routeVar

/-! ## A concrete deployment used to evaluate the definitions -/

/-- Group 3, named "team": user 1 is an admin, user 2 a plain member. -/
def exampleTeam : Group := ⟨3, "team", [(1, Role.admin), (2, Role.member)]⟩

/-- Collaborators of the example: group 7 is granted level 5 on project "demo"; the only
group is "team"; the only template is "tmpl" of group 3. -/
def exampleAPI : API where
  FindPermissionByGroupID := fun ids => if 7 ∈ ids then .ok [("demo", 5)] else .ok []
  LoadGroup := fun name =>
    if name = "team" then .ok exampleTeam else .error ⟨ErrKind.NotFound, "group not found"⟩
  LoadBySlugAndGroupID := fun slug gid =>
    if slug = "tmpl" ∧ gid = 3 then .ok (some ⟨3, "tmpl"⟩) else .ok none

/-- The caller of the example: token groups `[7]`, user 2. -/
def exampleCtx : Context := ⟨[⟨7, "seven", []⟩], ⟨2⟩⟩

/-- Free identifiers of the example: `permissionValue` is 4 and `PermissionRead` is 4. -/
def exampleFree : Free := ⟨exampleCtx, 4, 4⟩

/-- Free identifiers of the example with `permissionValue` 7 above `PermissionRead` 4. -/
def exampleFreeHigh : Free := ⟨exampleCtx, 7, 4⟩

/-- Collaborators of the example whose project-grant query fails with a storage error. -/
def exampleFailingAPI : API where
  FindPermissionByGroupID := fun _ => .error ⟨ErrKind.Storage, "database unavailable"⟩
  LoadGroup := exampleAPI.LoadGroup
  LoadBySlugAndGroupID := exampleAPI.LoadBySlugAndGroupID

/-- Collaborators of the example in which groups 7 and 8 grant project "demo" at levels 4
and 7, and the group "team" owns no template. -/
def exampleTwoGrantsAPI : API where
  FindPermissionByGroupID := fun ids =>
    .ok ((if 7 ∈ ids then [("demo", 4)] else []) ++ (if 8 ∈ ids then [("demo", 7)] else []))
  LoadGroup := exampleAPI.LoadGroup
  LoadBySlugAndGroupID := fun _ _ => .ok none

/-! ## Auxiliary facts -/

theorem le_foldl_max_iff (ls : List Int) (l req : Int) :
    req ≤ ls.foldl max l ↔ req ≤ l ∨ ∃ x ∈ ls, req ≤ x := by
  induction ls generalizing l with
  | nil => simp
  | cons a as ih =>
    simp only [List.foldl_cons, ih, List.mem_cons, exists_eq_or_imp, le_max_iff]
    tauto

theorem ProjectPermission_granted_iff (perms : GroupPermissions) (key : String) (req : Int) :
    ((perms.ProjectPermission key).2 = true ∧ req ≤ (perms.ProjectPermission key).1) ↔
      ∃ g ∈ perms.Projects, g.1 = key ∧ req ≤ g.2 := by
  unfold GroupPermissions.ProjectPermission
  generalize h : (perms.Projects.filter (fun g => g.1 == key)).map (fun g => g.2) = levels
  have hmem : ∀ x, x ∈ levels ↔ ∃ g ∈ perms.Projects, g.1 = key ∧ g.2 = x := by
    intro x
    rw [← h]
    simp only [List.mem_map, List.mem_filter, beq_iff_eq]
    constructor
    · rintro ⟨g, ⟨hg, hk⟩, hx⟩
      exact ⟨g, hg, hk, hx⟩
    · rintro ⟨g, hg, hk, hx⟩
      exact ⟨g, ⟨hg, hk⟩, hx⟩
  cases levels with
  | nil =>
    constructor
    · intro hc
      simp at hc
    · rintro ⟨g, hg, hk, _⟩
      have := (hmem g.2).2 ⟨g, hg, hk, rfl⟩
      simp at this
  | cons l ls =>
    simp only [true_and, le_foldl_max_iff]
    constructor
    · rintro (hl | ⟨x, hx, hle⟩)
      · obtain ⟨g, hg, hk, hx⟩ := (hmem l).1 (List.mem_cons_self _ _)
        exact ⟨g, hg, hk, hx ▸ hl⟩
      · obtain ⟨g, hg, hk, hgx⟩ := (hmem x).1 (List.mem_cons_of_mem _ hx)
        exact ⟨g, hg, hk, hgx ▸ hle⟩
    · rintro ⟨g, hg, hk, hle⟩
      have := (hmem g.2).2 ⟨g, hg, hk, rfl⟩
      rcases List.mem_cons.1 this with h1 | h1
      · exact Or.inl (h1 ▸ hle)
      · exact Or.inr ⟨g.2, h1, hle⟩

theorem checkProjectPermissions_val (api : API) (key : String) (req : Int)
    (rv : List (String × String)) (groupID : List Int) (perms : GroupPermissions)
    (hload : (loadPermissionsByGroupID api groupID).val = (perms, none)) :
    (checkProjectPermissions api key req rv groupID).val =
      if (perms.ProjectPermission key).2 = true ∧ req ≤ (perms.ProjectPermission key).1 then none
      else some (WrapError ErrKind.Forbidden ("not authorized for project " ++ key)) := by
  unfold checkProjectPermissions
  simp only [hload]
  by_cases hg : (perms.ProjectPermission key).2 = true
  · by_cases hl : req ≤ (perms.ProjectPermission key).1
    · simp [hg, hl]
    · simp [hg, hl]
  · simp [hg]

theorem checkPermissionLoop_cons_unmatched (api : API) (fr : Free) (rv : List (String × String))
    (perm : Int) (gids : List Int) (key value : String) (rest : List (String × String))
    (h : (permissionFunc api fr).lookup key = none) :
    checkPermissionLoop api fr rv perm gids ((key, value) :: rest) =
      checkPermissionLoop api fr rv perm gids rest := by
  rw [checkPermissionLoop, h]

theorem checkPermissionLoop_cons_fail (api : API) (fr : Free) (rv : List (String × String))
    (perm : Int) (gids : List Int) (key value : String) (rest : List (String × String))
    (f : PermCheckFunc) (e : Err)
    (h : (permissionFunc api fr).lookup key = some f) (he : (f value perm rv gids).val = some e) :
    checkPermissionLoop api fr rv perm gids ((key, value) :: rest) =
      ⟨Call.permFunc key value :: (f value perm rv gids).calls, some e⟩ := by
  rw [checkPermissionLoop, h]
  simp only [he]

theorem checkPermissionLoop_cons_pass (api : API) (fr : Free) (rv : List (String × String))
    (perm : Int) (gids : List Int) (key value : String) (rest : List (String × String))
    (f : PermCheckFunc)
    (h : (permissionFunc api fr).lookup key = some f) (hn : (f value perm rv gids).val = none) :
    checkPermissionLoop api fr rv perm gids ((key, value) :: rest) =
      ⟨Call.permFunc key value :: (f value perm rv gids).calls ++
          (checkPermissionLoop api fr rv perm gids rest).calls,
        (checkPermissionLoop api fr rv perm gids rest).val⟩ := by
  rw [checkPermissionLoop, h]
  simp only [hn]

theorem checkPermissionLoop_val_none_iff (api : API) (fr : Free) (rv : List (String × String))
    (perm : Int) (gids : List Int) (todo : List (String × String)) :
    (checkPermissionLoop api fr rv perm gids todo).val = none ↔
      ∀ kv ∈ todo, ∀ f, (permissionFunc api fr).lookup kv.1 = some f →
        (f kv.2 perm rv gids).val = none := by
  induction todo with
  | nil =>
    constructor
    · intro _ kv hkv
      cases hkv
    · intro _
      rfl
  | cons kv rest ih =>
    obtain ⟨key, value⟩ := kv
    cases hl : (permissionFunc api fr).lookup key with
    | none =>
      rw [checkPermissionLoop_cons_unmatched _ _ _ _ _ _ _ _ hl, ih]
      constructor
      · intro h kv hkv f hf
        rcases List.mem_cons.1 hkv with rfl | hmem
        · rw [hl] at hf
          cases hf
        · exact h kv hmem f hf
      · intro h kv hkv f hf
        exact h kv (List.mem_cons_of_mem _ hkv) f hf
    | some f =>
      cases hv : (f value perm rv gids).val with
      | some e =>
        rw [checkPermissionLoop_cons_fail _ _ _ _ _ _ _ _ f e hl hv]
        constructor
        · intro h
          cases h
        · intro h
          have := h (key, value) (List.mem_cons_self _ _) f hl
          rw [hv] at this
          cases this
      | none =>
        rw [checkPermissionLoop_cons_pass _ _ _ _ _ _ _ _ f hl hv]
        show (checkPermissionLoop api fr rv perm gids rest).val = none ↔ _
        rw [ih]
        constructor
        · intro h kv hkv g hg
          rcases List.mem_cons.1 hkv with rfl | hmem
          · rw [hl] at hg
            cases hg
            exact hv
          · exact h kv hmem g hg
        · intro h kv hkv g hg
          exact h kv (List.mem_cons_of_mem _ hkv) g hg

theorem checkPermissionLoop_error_split (api : API) (fr : Free) (rv : List (String × String))
    (perm : Int) (gids : List Int) (todo : List (String × String)) (e : Err)
    (h : (checkPermissionLoop api fr rv perm gids todo).val = some e) :
    ∃ pre key value post f,
      todo = pre ++ (key, value) :: post ∧
      (permissionFunc api fr).lookup key = some f ∧
      (f value perm rv gids).val = some e ∧
      (∀ kv ∈ pre, ∀ g, (permissionFunc api fr).lookup kv.1 = some g →
        (g kv.2 perm rv gids).val = none) ∧
      checkPermissionLoop api fr rv perm gids todo =
        checkPermissionLoop api fr rv perm gids (pre ++ [(key, value)]) ∧
      (checkPermissionLoop api fr rv perm gids todo).calls =
        (checkPermissionLoop api fr rv perm gids pre).calls ++
          Call.permFunc key value :: (f value perm rv gids).calls := by
  induction todo with
  | nil => simp [checkPermissionLoop] at h
  | cons kv rest ih =>
    obtain ⟨key, value⟩ := kv
    cases hl : (permissionFunc api fr).lookup key with
    | none =>
      rw [checkPermissionLoop_cons_unmatched _ _ _ _ _ _ _ _ hl] at h ⊢
      obtain ⟨pre, k, v, post, f, hsplit, hf, hfe, hpre, hrun, hcalls⟩ := ih h
      refine ⟨(key, value) :: pre, k, v, post, f, by simp [hsplit], hf, hfe, ?_, ?_, ?_⟩
      · intro kv hkv g hg
        rcases List.mem_cons.1 hkv with rfl | hmem
        · rw [hl] at hg
          cases hg
        · exact hpre kv hmem g hg
      · show _ = checkPermissionLoop api fr rv perm gids ((key, value) :: (pre ++ [(k, v)]))
        rw [checkPermissionLoop_cons_unmatched _ _ _ _ _ _ _ _ hl]
        exact hrun
      · rw [checkPermissionLoop_cons_unmatched _ _ _ _ _ _ _ _ hl]
        exact hcalls
    | some f =>
      cases hv : (f value perm rv gids).val with
      | some e' =>
        rw [checkPermissionLoop_cons_fail _ _ _ _ _ _ _ _ f e' hl hv] at h ⊢
        have hee : e' = e := Option.some.inj h
        subst hee
        refine ⟨[], key, value, rest, f, rfl, hl, hv, ?_, ?_, ?_⟩
        · intro kv hkv
          cases hkv
        · show _ = checkPermissionLoop api fr rv perm gids ((key, value) :: [])
          rw [checkPermissionLoop_cons_fail _ _ _ _ _ _ _ _ f e' hl hv]
        · rfl
      | none =>
        rw [checkPermissionLoop_cons_pass _ _ _ _ _ _ _ _ f hl hv] at h ⊢
        obtain ⟨pre, k, v, post, f', hsplit, hf, hfe, hpre, hrun, hcalls⟩ := ih h
        refine ⟨(key, value) :: pre, k, v, post, f', by simp [hsplit], hf, hfe, ?_, ?_, ?_⟩
        · intro kv hkv g hg
          rcases List.mem_cons.1 hkv with rfl | hmem
          · rw [hl] at hg
            cases hg
            exact hv
          · exact hpre kv hmem g hg
        · show _ = checkPermissionLoop api fr rv perm gids ((key, value) :: (pre ++ [(k, v)]))
          rw [checkPermissionLoop_cons_pass _ _ _ _ _ _ _ _ f hl hv, ← hrun]
        · rw [checkPermissionLoop_cons_pass _ _ _ _ _ _ _ _ f hl hv]
          simp only [hcalls, List.cons_append, List.append_assoc]

theorem lookup_eq_none_of_not_mem_keys {β : Type} (l : List (String × β)) (k : String)
    (h : k ∉ l.map Prod.fst) : l.lookup k = none := by
  induction l with
  | nil => rfl
  | cons p rest ih =>
    obtain ⟨k', v⟩ := p
    have hk : k ≠ k' := fun hc => h (by simp [hc])
    have hrest : k ∉ rest.map Prod.fst := fun hc => h (by simp at hc ⊢; exact Or.inr hc)
    rw [List.lookup_cons, beq_false_of_ne hk]
    exact ih hrest

theorem value_unique_of_nodup_keys (l : List (String × String))
    (h : (l.map Prod.fst).Nodup) (k v w : String) (h1 : (k, v) ∈ l) (h2 : (k, w) ∈ l) :
    v = w := by
  induction l with
  | nil => cases h1
  | cons p rest ih =>
    rw [List.map_cons, List.nodup_cons] at h
    have hfst : ∀ x, (k, x) ∈ rest → k ∈ rest.map Prod.fst := fun x hx =>
      List.mem_map.2 ⟨(k, x), hx, rfl⟩
    rcases List.mem_cons.1 h1 with e1 | m1
    · rcases List.mem_cons.1 h2 with e2 | m2
      · rw [← e2] at e1
        exact (Prod.mk.inj e1).2
      · exact absurd (hfst w m2) (by rw [← e1] at h; exact h.1)
    · rcases List.mem_cons.1 h2 with e2 | m2
      · exact absurd (hfst v m1) (by rw [← e2] at h; exact h.1)
      · exact ih h.2 m1 m2

theorem permissionFunc_lookup_project (api : API) (fr : Free) :
    (permissionFunc api fr).lookup "permProjectKey" = some (checkProjectPermissions api) := by
  rfl

/-- The decision of `checkProjectPermissions` over a grant set loaded without error, in
terms of the grants themselves. -/
theorem checkProjectPermissions_decision (api : API) (key : String) (req : Int)
    (rv : List (String × String)) (groupID : List Int) (perms : GroupPermissions)
    (hload : (loadPermissionsByGroupID api groupID).val = (perms, none)) :
    ((checkProjectPermissions api key req rv groupID).val = none ↔
        ∃ g ∈ perms.Projects, g.1 = key ∧ g.2 ≥ req) ∧
    ((¬ ∃ g ∈ perms.Projects, g.1 = key ∧ g.2 ≥ req) →
        (checkProjectPermissions api key req rv groupID).val =
          some ⟨ErrKind.Forbidden, "not authorized for project " ++ key⟩) := by
  rw [checkProjectPermissions_val api key req rv groupID perms hload]
  have hiff := ProjectPermission_granted_iff perms key req
  by_cases hg : (perms.ProjectPermission key).2 = true ∧ req ≤ (perms.ProjectPermission key).1
  · rw [if_pos hg]
    exact ⟨⟨fun _ => hiff.1 hg, fun _ => rfl⟩, fun hn => absurd (hiff.1 hg) hn⟩
  · rw [if_neg hg]
    refine ⟨⟨fun hc => ?_, fun hex => absurd (hiff.2 hex) hg⟩, fun _ => rfl⟩
    cases hc

/-! ## Claims -/

/-- C1: when the grant loader returns a grant set without error, `checkProjectPermissions`
returns no error exactly when the grant set holds a grant for the key whose level is at
least the required level, and in every other such case it returns a `Forbidden` error. -/
theorem checkProjectPermissions_iff_grant (api : API) (key : String) (req : Int)
    (rv : List (String × String)) (groupID : List Int) (perms : GroupPermissions)
    (hload : (loadPermissionsByGroupID api groupID).val = (perms, none)) :
    ((checkProjectPermissions api key req rv groupID).val = none ↔
        ∃ g ∈ perms.Projects, g.1 = key ∧ g.2 ≥ req) ∧
    ((¬ ∃ g ∈ perms.Projects, g.1 = key ∧ g.2 ≥ req) →
        ∃ e, (checkProjectPermissions api key req rv groupID).val = some e ∧
          e.kind = ErrKind.Forbidden ∧ e.msg = "not authorized for project " ++ key) := by
  have h := checkProjectPermissions_decision api key req rv groupID perms hload
  exact ⟨h.1, fun hn => ⟨_, h.2 hn, rfl, rfl⟩⟩

/-- Witness of C1: groups `[7]`, project "demo" granted at level 5, required level 4. -/
theorem checkProjectPermissions_iff_grant_witness :
    (loadPermissionsByGroupID exampleAPI [7]).val = (⟨[("demo", 5)]⟩, none) ∧
    (((checkProjectPermissions exampleAPI "demo" 4 [] [7]).val = none ↔
        ∃ g ∈ (⟨[("demo", 5)]⟩ : GroupPermissions).Projects, g.1 = "demo" ∧ g.2 ≥ 4) ∧
    ((¬ ∃ g ∈ (⟨[("demo", 5)]⟩ : GroupPermissions).Projects, g.1 = "demo" ∧ g.2 ≥ 4) →
        ∃ e, (checkProjectPermissions exampleAPI "demo" 4 [] [7]).val = some e ∧
          e.kind = ErrKind.Forbidden ∧ e.msg = "not authorized for project " ++ "demo")) :=
  ⟨rfl, checkProjectPermissions_iff_grant exampleAPI "demo" 4 [] [7] ⟨[("demo", 5)]⟩ rfl⟩

/-- C2: for a route-variable map whose only registry key is `permProjectKey`, bound to a
project on which the caller's groups are granted level `G`, `checkPermission` succeeds for
every required level `≤ G` and returns the `Forbidden` error "not authorized for project
<key>" for every required level `> G`. -/
theorem checkPermission_project_only (api : API) (fr : Free) (ctx : Context)
    (routeVar : List (String × String)) (key : String) (G : Int) (perms : GroupPermissions)
    (hnodup : (routeVar.map Prod.fst).Nodup)
    (hmem : ("permProjectKey", key) ∈ routeVar)
    (honly : ∀ kv ∈ routeVar, kv.1 ≠ "permProjectKey" →
      kv.1 ∉ (permissionFunc api fr).map Prod.fst)
    (hload : (loadPermissionsByGroupID api (GroupsToIDs ctx.Groups)).val = (perms, none))
    (hgrant : (key, G) ∈ perms.Projects)
    (hmax : ∀ g ∈ perms.Projects, g.1 = key → g.2 ≤ G) :
    ∀ req : Int,
      (req ≤ G → (checkPermission api fr ctx routeVar req).val = none) ∧
      (G < req → (checkPermission api fr ctx routeVar req).val =
        some ⟨ErrKind.Forbidden, "not authorized for project " ++ key⟩) := by
  intro req
  have hC1 := fun rv => checkProjectPermissions_decision api key req rv (GroupsToIDs ctx.Groups)
    perms hload
  have hrec : ∀ kv ∈ routeVar, ∀ f, (permissionFunc api fr).lookup kv.1 = some f →
      kv.2 = key ∧ f = checkProjectPermissions api := by
    intro kv hkv f hf
    by_cases hk : kv.1 = "permProjectKey"
    · obtain ⟨k, v⟩ := kv
      simp only at hk
      subst hk
      refine ⟨value_unique_of_nodup_keys routeVar hnodup _ v key hkv hmem, ?_⟩
      rw [permissionFunc_lookup_project] at hf
      exact (Option.some.inj hf).symm
    · rw [lookup_eq_none_of_not_mem_keys _ _ (honly kv hkv hk)] at hf
      cases hf
  unfold checkPermission
  constructor
  · intro hle
    rw [checkPermissionLoop_val_none_iff]
    intro kv hkv f hf
    obtain ⟨hv, hfe⟩ := hrec kv hkv f hf
    rw [hv, hfe]
    exact ((hC1 routeVar).1).2 ⟨(key, G), hgrant, rfl, hle⟩
  · intro hlt
    have hno : ¬ ∃ g ∈ perms.Projects, g.1 = key ∧ g.2 ≥ req := by
      rintro ⟨g, hg, hk, hge⟩
      have := hmax g hg hk
      omega
    have herr := (hC1 routeVar).2 hno
    cases hres : (checkPermissionLoop api fr routeVar req (GroupsToIDs ctx.Groups) routeVar).val with
    | none =>
      rw [checkPermissionLoop_val_none_iff] at hres
      have := hres ("permProjectKey", key) hmem _ (permissionFunc_lookup_project api fr)
      rw [herr] at this
      cases this
    | some e =>
      obtain ⟨pre, k, v, post, f, hsplit, hf, hfe, _, _, _⟩ :=
        checkPermissionLoop_error_split _ _ _ _ _ _ e hres
      have hkv : (k, v) ∈ routeVar := by
        rw [hsplit]
        exact List.mem_append_right _ (List.mem_cons_self _ _)
      obtain ⟨hv, hfeq⟩ := hrec (k, v) hkv f hf
      simp only at hv
      rw [hv, hfeq, herr] at hfe
      exact hfe.symm

/-- Witness of C2: groups `{7}`, grant (project "demo", level 5), route
`{"permProjectKey": "demo"}`: level 4 succeeds, level 7 is denied with "not authorized for
project demo". -/
theorem checkPermission_project_only_witness :
    (checkPermission exampleAPI exampleFree exampleCtx [("permProjectKey", "demo")] 4).val = none ∧
    (checkPermission exampleAPI exampleFree exampleCtx [("permProjectKey", "demo")] 7).val =
      some ⟨ErrKind.Forbidden, "not authorized for project demo"⟩ :=
  have h := checkPermission_project_only exampleAPI exampleFree exampleCtx
    [("permProjectKey", "demo")] "demo" 5 ⟨[("demo", 5)]⟩ (by decide) (by decide) (by decide)
    rfl (by decide) (by decide)
  ⟨(h 4).1 (by decide), (h 7).2 (by decide)⟩

/-- C3: each of the workflow, group, worker-model, action and builtin-action checkers
returns a `Forbidden` error for every resource name, required level, route-variable map
and group-ID list, and performs no collaborator call. -/
theorem unconditional_denials (name : String) (perm : Int) (routeVars : List (String × String))
    (groupID : List Int) :
    checkWorkflowPermissions name perm routeVars groupID =
      ⟨[], some ⟨ErrKind.Forbidden,
        "not authorized for workflow " ++ name ++ ", missing project key value"⟩⟩ ∧
    checkGroupPermissions name perm routeVars groupID =
      ⟨[], some ⟨ErrKind.Forbidden, "not authorized for group " ++ name⟩⟩ ∧
    checkWorkerModelPermissions name perm routeVars groupID =
      ⟨[], some ⟨ErrKind.Forbidden, "not authorized for worker model " ++ name⟩⟩ ∧
    checkActionPermissions name perm routeVars groupID =
      ⟨[], some ⟨ErrKind.Forbidden, "not authorized for action " ++ name⟩⟩ ∧
    checkActionBuiltinPermissions name perm routeVars groupID =
      ⟨[], some ⟨ErrKind.Forbidden, "not authorized for action " ++ name⟩⟩ :=
  ⟨rfl, rfl, rfl, rfl, rfl⟩

/-- C4: `checkPermission` succeeds if and only if the checker of every matched
(registry-recognized) route variable succeeds on its value; so a single matched variable
whose checker denies makes the overall result a denial, whatever the other checkers say. -/
theorem checkPermission_conjunctive (api : API) (fr : Free) (ctx : Context)
    (routeVar : List (String × String)) (permission : Int) :
    ((checkPermission api fr ctx routeVar permission).val = none ↔
      ∀ kv ∈ routeVar, ∀ f, (permissionFunc api fr).lookup kv.1 = some f →
        (f kv.2 permission routeVar (GroupsToIDs ctx.Groups)).val = none) ∧
    (∀ kv ∈ routeVar, ∀ f, (permissionFunc api fr).lookup kv.1 = some f →
      (f kv.2 permission routeVar (GroupsToIDs ctx.Groups)).val ≠ none →
        (checkPermission api fr ctx routeVar permission).val ≠ none) := by
  have hiff := checkPermissionLoop_val_none_iff api fr routeVar permission
    (GroupsToIDs ctx.Groups) routeVar
  exact ⟨hiff, fun kv hkv f hf hne hc => hne (hiff.1 hc kv hkv f hf)⟩

/-- Witness of C4: the project checker allows "demo" at level 4, the group checker denies
"team", and the route carrying both is denied. -/
theorem checkPermission_conjunctive_witness :
    (checkProjectPermissions exampleAPI "demo" 4
      [("permProjectKey", "demo"), ("permGroupName", "team")] [7]).val = none ∧
    (checkPermission exampleAPI exampleFree exampleCtx
      [("permProjectKey", "demo"), ("permGroupName", "team")] 4).val ≠ none :=
  ⟨rfl, (checkPermission_conjunctive exampleAPI exampleFree exampleCtx
      [("permProjectKey", "demo"), ("permGroupName", "team")] 4).2
      ("permGroupName", "team") (by decide) checkGroupPermissions rfl (by decide)⟩

/-- C5: for a route-variable map none of whose keys is a registry key (the empty map
included), `checkPermission` returns success and performs no call at all: no checker is
invoked. -/
theorem checkPermission_vacuous (api : API) (fr : Free) (ctx : Context)
    (routeVar : List (String × String)) (permission : Int)
    (h : ∀ kv ∈ routeVar, kv.1 ∉ (permissionFunc api fr).map Prod.fst) :
    checkPermission api fr ctx routeVar permission = ⟨[], none⟩ := by
  unfold checkPermission
  generalize GroupsToIDs ctx.Groups = gids
  suffices hs : ∀ todo : List (String × String),
      (∀ kv ∈ todo, kv.1 ∉ (permissionFunc api fr).map Prod.fst) →
        checkPermissionLoop api fr routeVar permission gids todo = ⟨[], none⟩ from hs routeVar h
  intro todo
  induction todo with
  | nil => intro _; rfl
  | cons kv rest ih =>
    intro htodo
    obtain ⟨key, value⟩ := kv
    rw [checkPermissionLoop_cons_unmatched _ _ _ _ _ _ _ _
      (lookup_eq_none_of_not_mem_keys _ _ (htodo (key, value) (List.mem_cons_self _ _)))]
    exact ih (fun kv hkv => htodo kv (List.mem_cons_of_mem _ hkv))

/-- Witness of C5: a route with the two unrecognized variables "groupName" and "id". -/
theorem checkPermission_vacuous_witness :
    (∀ kv ∈ [("groupName", "team"), ("id", "12")],
      kv.1 ∉ (permissionFunc exampleAPI exampleFree).map Prod.fst) ∧
    checkPermission exampleAPI exampleFree exampleCtx [("groupName", "team"), ("id", "12")] 7 =
      ⟨[], none⟩ :=
  ⟨by decide, checkPermission_vacuous exampleAPI exampleFree exampleCtx
    [("groupName", "team"), ("id", "12")] 7 (by decide)⟩

/-- C6: whenever `checkPermission` returns an error `e`, the route variables split, in
visiting order, into the variables visited before the failure, whose matched checkers all
succeeded, the failing variable, whose checker returned exactly `e`, and the variables
after it, which are not visited: the run equals the run over the variables up to and
including the failing one, and its calls end with the calls of the failing checker. -/
theorem checkPermission_first_error (api : API) (fr : Free) (ctx : Context)
    (routeVar : List (String × String)) (permission : Int) (e : Err)
    (h : (checkPermission api fr ctx routeVar permission).val = some e) :
    ∃ pre key value post f,
      routeVar = pre ++ (key, value) :: post ∧
      (permissionFunc api fr).lookup key = some f ∧
      (f value permission routeVar (GroupsToIDs ctx.Groups)).val = some e ∧
      (∀ kv ∈ pre, ∀ g, (permissionFunc api fr).lookup kv.1 = some g →
        (g kv.2 permission routeVar (GroupsToIDs ctx.Groups)).val = none) ∧
      checkPermission api fr ctx routeVar permission =
        checkPermissionLoop api fr routeVar permission (GroupsToIDs ctx.Groups)
          (pre ++ [(key, value)]) ∧
      (checkPermission api fr ctx routeVar permission).calls =
        (checkPermissionLoop api fr routeVar permission (GroupsToIDs ctx.Groups) pre).calls ++
          Call.permFunc key value ::
            (f value permission routeVar (GroupsToIDs ctx.Groups)).calls :=
  checkPermissionLoop_error_split api fr routeVar permission (GroupsToIDs ctx.Groups)
    routeVar e h

/-- Witness of C6: the project checker succeeds, the workflow checker fails, and the group
variable visited after it, whose checker would fail with another error, is never checked. -/
theorem checkPermission_first_error_witness :
    checkPermission exampleAPI exampleFree exampleCtx
        [("permProjectKey", "demo"), ("permWorkflowName", "w"), ("permGroupName", "team")] 4 =
      ⟨[Call.permFunc "permProjectKey" "demo", Call.FindPermissionByGroupID [7],
          Call.permFunc "permWorkflowName" "w"],
        some ⟨ErrKind.Forbidden, "not authorized for workflow w, missing project key value"⟩⟩ ∧
    ∃ pre key value post f,
      [("permProjectKey", "demo"), ("permWorkflowName", "w"), ("permGroupName", "team")] =
        pre ++ (key, value) :: post ∧
      (permissionFunc exampleAPI exampleFree).lookup key = some f ∧
      (f value 4 [("permProjectKey", "demo"), ("permWorkflowName", "w"),
          ("permGroupName", "team")] (GroupsToIDs exampleCtx.Groups)).val =
        some ⟨ErrKind.Forbidden, "not authorized for workflow w, missing project key value"⟩ ∧
      (∀ kv ∈ pre, ∀ g, (permissionFunc exampleAPI exampleFree).lookup kv.1 = some g →
        (g kv.2 4 [("permProjectKey", "demo"), ("permWorkflowName", "w"),
          ("permGroupName", "team")] (GroupsToIDs exampleCtx.Groups)).val = none) ∧
      checkPermission exampleAPI exampleFree exampleCtx
          [("permProjectKey", "demo"), ("permWorkflowName", "w"), ("permGroupName", "team")] 4 =
        checkPermissionLoop exampleAPI exampleFree
          [("permProjectKey", "demo"), ("permWorkflowName", "w"), ("permGroupName", "team")] 4
          (GroupsToIDs exampleCtx.Groups) (pre ++ [(key, value)]) ∧
      (checkPermission exampleAPI exampleFree exampleCtx
          [("permProjectKey", "demo"), ("permWorkflowName", "w"),
            ("permGroupName", "team")] 4).calls =
        (checkPermissionLoop exampleAPI exampleFree
          [("permProjectKey", "demo"), ("permWorkflowName", "w"), ("permGroupName", "team")] 4
          (GroupsToIDs exampleCtx.Groups) pre).calls ++
          Call.permFunc key value ::
            (f value 4 [("permProjectKey", "demo"), ("permWorkflowName", "w"),
              ("permGroupName", "team")] (GroupsToIDs exampleCtx.Groups)).calls :=
  ⟨by decide, checkPermission_first_error exampleAPI exampleFree exampleCtx
    [("permProjectKey", "demo"), ("permWorkflowName", "w"), ("permGroupName", "team")] 4
    ⟨ErrKind.Forbidden, "not authorized for workflow w, missing project key value"⟩ (by decide)⟩

/-- C7: when `routeVars["groupName"]` is empty or missing, or the template slug is empty,
`checkTemplateSlugPermissions` returns the `ErrWrongRequest` error and performs no call:
the result is the same for all collaborators `api` and free identifiers `fr`. -/
theorem checkTemplateSlugPermissions_malformed (api : API) (fr : Free) (templateSlug : String)
    (perm : Int) (routeVars : List (String × String)) (groupID : List Int)
    (h : getVar routeVars "groupName" = "" ∨ templateSlug = "") :
    checkTemplateSlugPermissions api fr templateSlug perm routeVars groupID =
      ⟨[], some ⟨ErrKind.WrongRequest, "invalid given group or workflow template slug"⟩⟩ := by
  unfold checkTemplateSlugPermissions
  have hc : (getVar routeVars "groupName" == "" || templateSlug == "") = true := by
    rcases h with h | h <;> simp [h]
  simp only [hc, if_true]
  rfl

/-- Witness of C7: a route without "groupName", and an empty slug. -/
theorem checkTemplateSlugPermissions_malformed_witness :
    (getVar [("permTemplateSlug", "tmpl")] "groupName" = "" ∨ "tmpl" = "") ∧
    checkTemplateSlugPermissions exampleAPI exampleFree "tmpl" 4 [("permTemplateSlug", "tmpl")] [7] =
      ⟨[], some ⟨ErrKind.WrongRequest, "invalid given group or workflow template slug"⟩⟩ :=
  ⟨by decide, checkTemplateSlugPermissions_malformed exampleAPI exampleFree "tmpl" 4
    [("permTemplateSlug", "tmpl")] [7] (by decide)⟩

/-- C8: on a well-formed input whose group lookup fails with `e`, the checker returns
exactly `e` and its only call is the group lookup: neither a role check nor the template
lookup is performed. -/
theorem checkTemplateSlugPermissions_group_error (api : API) (fr : Free) (templateSlug : String)
    (perm : Int) (routeVars : List (String × String)) (groupID : List Int) (e : Err)
    (hg : getVar routeVars "groupName" ≠ "") (hs : templateSlug ≠ "")
    (hl : api.LoadGroup (getVar routeVars "groupName") = .error e) :
    checkTemplateSlugPermissions api fr templateSlug perm routeVars groupID =
      ⟨[Call.LoadGroup (getVar routeVars "groupName")], some e⟩ := by
  unfold checkTemplateSlugPermissions
  have hc : (getVar routeVars "groupName" == "" || templateSlug == "") = false := by
    simp [hg, hs]
  simp only [hc, hl]
  rfl

/-- Witness of C8: the group "ghost" is unknown; the lookup error, of kind `NotFound`, is
returned as it is. -/
theorem checkTemplateSlugPermissions_group_error_witness :
    getVar [("groupName", "ghost"), ("permTemplateSlug", "tmpl")] "groupName" ≠ "" ∧
    "tmpl" ≠ "" ∧
    exampleAPI.LoadGroup (getVar [("groupName", "ghost"), ("permTemplateSlug", "tmpl")] "groupName") =
      .error ⟨ErrKind.NotFound, "group not found"⟩ ∧
    checkTemplateSlugPermissions exampleAPI exampleFreeHigh "tmpl" 7
        [("groupName", "ghost"), ("permTemplateSlug", "tmpl")] [7] =
      ⟨[Call.LoadGroup (getVar [("groupName", "ghost"), ("permTemplateSlug", "tmpl")] "groupName")],
        some ⟨ErrKind.NotFound, "group not found"⟩⟩ :=
  ⟨by decide, by decide, rfl, checkTemplateSlugPermissions_group_error exampleAPI exampleFreeHigh
    "tmpl" 7 [("groupName", "ghost"), ("permTemplateSlug", "tmpl")] [7]
    ⟨ErrKind.NotFound, "group not found"⟩ (by decide) (by decide) rfl⟩

/-- The role gate as the code decides it: when the free identifier `permissionValue`
exceeds `PermissionRead` and the caller is not an admin of the resolved group, the checker
returns the admin check's `Forbidden` error and no template lookup is performed. -/
theorem checkTemplateSlugPermissions_admin_gate (api : API) (fr : Free) (templateSlug : String)
    (perm : Int) (routeVars : List (String × String)) (groupID : List Int) (g : Group)
    (hg : getVar routeVars "groupName" ≠ "") (hs : templateSlug ≠ "")
    (hl : api.LoadGroup (getVar routeVars "groupName") = .ok g)
    (hperm : fr.permissionValue > fr.PermissionRead)
    (hrole : g.roleOf fr.ctx.User ≠ Role.admin) :
    checkTemplateSlugPermissions api fr templateSlug perm routeVars groupID =
      ⟨[Call.LoadGroup (getVar routeVars "groupName"), Call.CheckUserIsGroupAdmin g fr.ctx.User],
        some ⟨ErrKind.Forbidden, "group admin required"⟩⟩ := by
  unfold checkTemplateSlugPermissions
  have hc : (getVar routeVars "groupName" == "" || templateSlug == "") = false := by
    simp [hg, hs]
  simp only [hc, hl, hperm, CheckUserIsGroupAdmin, hrole, WrapError]
  rfl

/-- The role gate as the code decides it: when the free identifier `permissionValue` does
not exceed `PermissionRead`, a non-member is denied with the member check's `Forbidden`
error, and for every other caller the template lookup alone decides the result. -/
theorem checkTemplateSlugPermissions_member_gate (api : API) (fr : Free) (templateSlug : String)
    (perm : Int) (routeVars : List (String × String)) (groupID : List Int) (g : Group)
    (hg : getVar routeVars "groupName" ≠ "") (hs : templateSlug ≠ "")
    (hl : api.LoadGroup (getVar routeVars "groupName") = .ok g)
    (hperm : fr.permissionValue ≤ fr.PermissionRead) :
    (g.roleOf fr.ctx.User = Role.nonMember →
      checkTemplateSlugPermissions api fr templateSlug perm routeVars groupID =
        ⟨[Call.LoadGroup (getVar routeVars "groupName"),
            Call.CheckUserIsGroupMember g fr.ctx.User],
          some ⟨ErrKind.Forbidden, "group member required"⟩⟩) ∧
    (g.roleOf fr.ctx.User ≠ Role.nonMember →
      checkTemplateSlugPermissions api fr templateSlug perm routeVars groupID =
        ⟨[Call.LoadGroup (getVar routeVars "groupName"),
            Call.CheckUserIsGroupMember g fr.ctx.User,
            Call.LoadBySlugAndGroupID templateSlug g.ID],
          match api.LoadBySlugAndGroupID templateSlug g.ID with
          | .error err => some err
          | .ok none => some ⟨ErrKind.NotFound, ""⟩
          | .ok (some _) => none⟩) := by
  have hc : (getVar routeVars "groupName" == "" || templateSlug == "") = false := by
    simp [hg, hs]
  have hnp : ¬ fr.permissionValue > fr.PermissionRead := not_lt.2 hperm
  constructor
  · intro hrole
    unfold checkTemplateSlugPermissions
    simp only [hc, hl, hnp, CheckUserIsGroupMember, hrole, WrapError]
    rfl
  · intro hrole
    unfold checkTemplateSlugPermissions
    simp only [hc, hl, hnp, CheckUserIsGroupMember, hrole, WithStack]
    rcases hq : api.LoadBySlugAndGroupID templateSlug g.ID with err | (_ | t) <;> rfl

/-- C9, evaluation of the code: with the parameter `perm` at 7, above `PermissionRead` 4,
and the free identifier `permissionValue` at 4, a plain member of "team" passes the role
gate through the member check, the template lookup is performed and the checker succeeds:
the gate does not read the parameter. -/
theorem checkTemplateSlugPermissions_perm_above_read_member_passes :
    exampleFree.PermissionRead < 7 ∧
    exampleTeam.roleOf exampleFree.ctx.User = Role.member ∧
    checkTemplateSlugPermissions exampleAPI exampleFree "tmpl" 7
        [("groupName", "team"), ("permTemplateSlug", "tmpl")] [7] =
      ⟨[Call.LoadGroup "team", Call.CheckUserIsGroupMember exampleTeam ⟨2⟩,
          Call.LoadBySlugAndGroupID "tmpl" 3], none⟩ := by
  decide

/-- C10, evaluation of the code: with the parameter `perm` at 4, not above
`PermissionRead` 4, and the free identifier `permissionValue` at 7, a plain member of
"team" is denied by the admin check and the template lookup is not performed: the gate
does not read the parameter. -/
theorem checkTemplateSlugPermissions_perm_read_member_denied :
    (4 : Int) ≤ exampleFreeHigh.PermissionRead ∧
    exampleTeam.roleOf exampleFreeHigh.ctx.User = Role.member ∧
    checkTemplateSlugPermissions exampleAPI exampleFreeHigh "tmpl" 4
        [("groupName", "team"), ("permTemplateSlug", "tmpl")] [7] =
      ⟨[Call.LoadGroup "team", Call.CheckUserIsGroupAdmin exampleTeam ⟨2⟩],
        some ⟨ErrKind.Forbidden, "group admin required"⟩⟩ := by
  decide

/-- The code's role gate passed: the check the code selects from the free identifier
`permissionValue` returned no error, so the template lookup alone decides the result. -/
theorem checkTemplateSlugPermissions_after_gate (api : API) (fr : Free) (templateSlug : String)
    (perm : Int) (routeVars : List (String × String)) (groupID : List Int) (g : Group)
    (hg : getVar routeVars "groupName" ≠ "") (hs : templateSlug ≠ "")
    (hl : api.LoadGroup (getVar routeVars "groupName") = .ok g)
    (hgate : (if fr.permissionValue > fr.PermissionRead then CheckUserIsGroupAdmin g fr.ctx.User
      else CheckUserIsGroupMember g fr.ctx.User) = none) :
    (checkTemplateSlugPermissions api fr templateSlug perm routeVars groupID).val =
      match api.LoadBySlugAndGroupID templateSlug g.ID with
      | .error err => some err
      | .ok none => some ⟨ErrKind.NotFound, ""⟩
      | .ok (some _) => none := by
  unfold checkTemplateSlugPermissions
  have hc : (getVar routeVars "groupName" == "" || templateSlug == "") = false := by
    simp [hg, hs]
  simp only [hc, hl]
  by_cases hp : fr.permissionValue > fr.PermissionRead
  · rw [if_pos hp] at hgate
    simp only [hp, hgate, WithStack]
    rcases hq : api.LoadBySlugAndGroupID templateSlug g.ID with err | (_ | t) <;> rfl
  · rw [if_neg hp] at hgate
    simp only [hp, hgate, WithStack]
    rcases hq : api.LoadBySlugAndGroupID templateSlug g.ID with err | (_ | t) <;> rfl

/-- Success of the template-slug checker implies that the group was resolved and a template
was found for the slug and the resolved group. -/
theorem checkTemplateSlugPermissions_success_found (api : API) (fr : Free)
    (templateSlug : String) (perm : Int) (routeVars : List (String × String))
    (groupID : List Int)
    (h : (checkTemplateSlugPermissions api fr templateSlug perm routeVars groupID).val = none) :
    ∃ g t, api.LoadGroup (getVar routeVars "groupName") = .ok g ∧
      api.LoadBySlugAndGroupID templateSlug g.ID = .ok (some t) := by
  unfold checkTemplateSlugPermissions at h
  by_cases hc : (getVar routeVars "groupName" == "" || templateSlug == "") = true
  · simp [hc] at h
  · simp only [hc] at h
    rcases hlg : api.LoadGroup (getVar routeVars "groupName") with err | g
    · simp [hlg] at h
    · refine ⟨g, ?_⟩
      simp only [hlg] at h
      generalize (if fr.permissionValue > fr.PermissionRead then
          (⟨[Call.CheckUserIsGroupAdmin g fr.ctx.User],
            CheckUserIsGroupAdmin g fr.ctx.User⟩ : Run (Option Err))
        else ⟨[Call.CheckUserIsGroupMember g fr.ctx.User],
            CheckUserIsGroupMember g fr.ctx.User⟩) = gate at h
      obtain ⟨calls, gv⟩ := gate
      rcases hq : api.LoadBySlugAndGroupID templateSlug g.ID with err | (_ | t)
      · rw [hq] at h
        cases gv <;> cases h
      · rw [hq] at h
        cases gv <;> cases h
      · exact ⟨t, rfl, rfl⟩

/-- C11: on an input that passes validation, group lookup and the role gate the code runs,
the template lookup for (slug, resolved group ID) decides the result: no template gives the
`NotFound` error, a template gives success, and a lookup error is returned unchanged.
Conversely, on every input, success implies that a template was found. -/
theorem checkTemplateSlugPermissions_template_lookup (api : API) (fr : Free)
    (templateSlug : String) (perm : Int) (routeVars : List (String × String))
    (groupID : List Int) (g : Group)
    (hg : getVar routeVars "groupName" ≠ "") (hs : templateSlug ≠ "")
    (hl : api.LoadGroup (getVar routeVars "groupName") = .ok g)
    (hgate : (if fr.permissionValue > fr.PermissionRead then CheckUserIsGroupAdmin g fr.ctx.User
      else CheckUserIsGroupMember g fr.ctx.User) = none) :
    (api.LoadBySlugAndGroupID templateSlug g.ID = .ok none →
      (checkTemplateSlugPermissions api fr templateSlug perm routeVars groupID).val =
        some ⟨ErrKind.NotFound, ""⟩) ∧
    (∀ t, api.LoadBySlugAndGroupID templateSlug g.ID = .ok (some t) →
      (checkTemplateSlugPermissions api fr templateSlug perm routeVars groupID).val = none) ∧
    (∀ e, api.LoadBySlugAndGroupID templateSlug g.ID = .error e →
      (checkTemplateSlugPermissions api fr templateSlug perm routeVars groupID).val = some e) ∧
    ((checkTemplateSlugPermissions api fr templateSlug perm routeVars groupID).val = none →
      ∃ t, api.LoadBySlugAndGroupID templateSlug g.ID = .ok (some t)) := by
  have h := checkTemplateSlugPermissions_after_gate api fr templateSlug perm routeVars groupID g
    hg hs hl hgate
  refine ⟨fun hq => ?_, fun t hq => ?_, fun e hq => ?_, fun hn => ?_⟩
  · rw [h, hq]
  · rw [h, hq]
  · rw [h, hq]
  · obtain ⟨g', t, hl', hq⟩ :=
      checkTemplateSlugPermissions_success_found api fr templateSlug perm routeVars groupID hn
    rw [hl] at hl'
    cases hl'
    exact ⟨t, hq⟩

/-- Witness of C11: user 2 is a member of "team", the gate of the example runs the member
check; the template "tmpl" exists and the template "none" does not. -/
theorem checkTemplateSlugPermissions_template_lookup_witness :
    (checkTemplateSlugPermissions exampleAPI exampleFree "tmpl" 4
      [("groupName", "team"), ("permTemplateSlug", "tmpl")] [7]).val = none ∧
    (checkTemplateSlugPermissions exampleAPI exampleFree "none" 4
      [("groupName", "team"), ("permTemplateSlug", "none")] [7]).val =
        some ⟨ErrKind.NotFound, ""⟩ :=
  ⟨(checkTemplateSlugPermissions_template_lookup exampleAPI exampleFree "tmpl" 4
      [("groupName", "team"), ("permTemplateSlug", "tmpl")] [7] exampleTeam
      (by decide) (by decide) rfl (by decide)).2.1 ⟨3, "tmpl"⟩ rfl,
   (checkTemplateSlugPermissions_template_lookup exampleAPI exampleFree "none" 4
      [("groupName", "team"), ("permTemplateSlug", "none")] [7] exampleTeam
      (by decide) (by decide) rfl (by decide)).1 rfl⟩

/-- C12: when the grant loader succeeds and the grant set holds no grant for the requested
project key, `checkProjectPermissions` returns the `Forbidden` error for every required
level; an empty grant set is the special case of a caller without grants. -/
theorem checkProjectPermissions_no_grant (api : API) (key : String) (req : Int)
    (rv : List (String × String)) (groupID : List Int) (perms : GroupPermissions)
    (hload : (loadPermissionsByGroupID api groupID).val = (perms, none))
    (hno : ∀ g ∈ perms.Projects, g.1 ≠ key) :
    checkProjectPermissions api key req rv groupID =
      ⟨[Call.FindPermissionByGroupID groupID],
        some ⟨ErrKind.Forbidden, "not authorized for project " ++ key⟩⟩ := by
  have hval := (checkProjectPermissions_decision api key req rv groupID perms hload).2
    (fun ⟨g, hg, hk, _⟩ => hno g hg hk)
  have hcalls : (checkProjectPermissions api key req rv groupID).calls =
      [Call.FindPermissionByGroupID groupID] := by
    unfold checkProjectPermissions loadPermissionsByGroupID
    rcases api.FindPermissionByGroupID groupID with e | pp
    · rfl
    · simp only
      split <;> rfl
  rcases hr : checkProjectPermissions api key req rv groupID with ⟨c, v⟩
  rw [hr] at hval hcalls
  simp only at hval hcalls
  rw [hval, hcalls]

/-- Witness of C12: a caller with zero groups has an empty grant set and is denied on
project "demo" even at required level 0. -/
theorem checkProjectPermissions_no_grant_witness :
    (loadPermissionsByGroupID exampleAPI []).val = (⟨[]⟩, none) ∧
    checkProjectPermissions exampleAPI "demo" 0 [] [] =
      ⟨[Call.FindPermissionByGroupID []],
        some ⟨ErrKind.Forbidden, "not authorized for project " ++ "demo"⟩⟩ :=
  ⟨rfl, checkProjectPermissions_no_grant exampleAPI "demo" 0 [] [] ⟨[]⟩ rfl (by decide)⟩

/-- C13: `loadPermissionsByGroupID` returns an error exactly when the project-grant query
fails, and then that query's error itself; when the query succeeds the grant set's project
grants are the query's result; and `checkProjectPermissions` returns a grant-loader error
unchanged. -/
theorem loadPermissionsByGroupID_propagates (api : API) (groupID : List Int) :
    ((loadPermissionsByGroupID api groupID).val.2 ≠ none ↔
      ∃ e, api.FindPermissionByGroupID groupID = .error e) ∧
    (∀ e, api.FindPermissionByGroupID groupID = .error e →
      (loadPermissionsByGroupID api groupID).val.2 = some e) ∧
    (∀ grants, api.FindPermissionByGroupID groupID = .ok grants →
      (loadPermissionsByGroupID api groupID).val = (⟨grants⟩, none)) ∧
    (∀ e, (loadPermissionsByGroupID api groupID).val.2 = some e →
      ∀ key req rv, checkProjectPermissions api key req rv groupID =
        ⟨[Call.FindPermissionByGroupID groupID], some e⟩) := by
  unfold checkProjectPermissions loadPermissionsByGroupID
  rcases hq : api.FindPermissionByGroupID groupID with e | grants
  · refine ⟨⟨fun _ => ⟨e, rfl⟩, fun _ hc => ?_⟩, fun e' he => ?_, fun grants hc => ?_,
      fun e' he key req rv => ?_⟩
    · cases hc
    · cases he
      rfl
    · cases hc
    · cases he
      rfl
  · refine ⟨⟨fun hc => absurd rfl hc, fun ⟨e, he⟩ => ?_⟩, fun e' he => ?_, fun grants' hc => ?_,
      fun e' he key req rv => ?_⟩
    · cases he
    · cases he
    · cases hc
      rfl
    · cases he

/-- Witness of C13: the failing query's storage error is what the loader and the project
checker return. -/
theorem loadPermissionsByGroupID_propagates_witness :
    (loadPermissionsByGroupID exampleFailingAPI [7]).val.2 =
      some ⟨ErrKind.Storage, "database unavailable"⟩ ∧
    checkProjectPermissions exampleFailingAPI "demo" 4 [] [7] =
      ⟨[Call.FindPermissionByGroupID [7]], some ⟨ErrKind.Storage, "database unavailable"⟩⟩ ∧
    (loadPermissionsByGroupID exampleAPI [7]).val = (⟨[("demo", 5)]⟩, none) :=
  ⟨(loadPermissionsByGroupID_propagates exampleFailingAPI [7]).2.1 _ rfl,
   (loadPermissionsByGroupID_propagates exampleFailingAPI [7]).2.2.2 _ rfl "demo" 4 [],
   (loadPermissionsByGroupID_propagates exampleAPI [7]).2.2.1 _ rfl⟩

theorem foldl_max_mem (ls : List Int) (l : Int) : ls.foldl max l ∈ l :: ls := by
  induction ls generalizing l with
  | nil => simp
  | cons a as ih =>
    rw [List.foldl_cons]
    rcases List.mem_cons.1 (ih (max l a)) with h | h
    · rw [h]
      rcases max_choice l a with hm | hm
      · rw [hm]
        exact List.mem_cons_self _ _
      · rw [hm]
        exact List.mem_cons_of_mem _ (List.mem_cons_self _ _)
    · exact List.mem_cons_of_mem _ (List.mem_cons_of_mem _ h)

/-- The level `ProjectPermission` surfaces for a key that has a grant: one of the key's
granted levels, and an upper bound of all of them. -/
theorem ProjectPermission_maximum (perms : GroupPermissions) (key : String)
    (hex : ∃ g ∈ perms.Projects, g.1 = key) :
    (perms.ProjectPermission key).2 = true ∧
    (key, (perms.ProjectPermission key).1) ∈ perms.Projects ∧
    ∀ g ∈ perms.Projects, g.1 = key → g.2 ≤ (perms.ProjectPermission key).1 := by
  have hgr : ∀ req, ((perms.ProjectPermission key).2 = true ∧
      req ≤ (perms.ProjectPermission key).1) ↔ ∃ g ∈ perms.Projects, g.1 = key ∧ req ≤ g.2 :=
    ProjectPermission_granted_iff perms key
  obtain ⟨g0, hg0, hk0⟩ := hex
  have htrue : (perms.ProjectPermission key).2 = true :=
    ((hgr g0.2).2 ⟨g0, hg0, hk0, le_refl _⟩).1
  refine ⟨htrue, ?_, fun g hg hk => ((hgr g.2).2 ⟨g, hg, hk, le_refl _⟩).2⟩
  have hmem : (perms.ProjectPermission key).1 ∈
      (perms.Projects.filter (fun g => g.1 == key)).map (fun g => g.2) := by
    unfold GroupPermissions.ProjectPermission at htrue ⊢
    generalize (perms.Projects.filter (fun g => g.1 == key)).map (fun g => g.2) = lv at htrue ⊢
    rcases lv with _ | ⟨l, ls⟩
    · cases htrue
    · exact foldl_max_mem ls l
  obtain ⟨g, hg, hlvl⟩ := List.mem_map.1 hmem
  obtain ⟨hgm, hgk⟩ := List.mem_filter.1 hg
  have hkey : g.1 = key := by simpa using hgk
  have hge : g = (key, (perms.ProjectPermission key).1) := Prod.ext hkey hlvl
  rw [← hge]
  exact hgm

/-- C14: the grant set built by `loadPermissionsByGroupID` surfaces one level per project
key through `ProjectPermission`; for a key that several grants name, that level is one of
the granted levels and at least every one of them, the maximum, and it is the level the
project checker compares against the required level. -/
theorem loadPermissionsByGroupID_surfaces_maximum (api : API) (groupID : List Int)
    (grants : List (String × Int)) (key : String)
    (hq : api.FindPermissionByGroupID groupID = .ok grants)
    (hex : ∃ g ∈ grants, g.1 = key) :
    ∃ lvl : Int,
      (loadPermissionsByGroupID api groupID).val.1.ProjectPermission key = (lvl, true) ∧
      (key, lvl) ∈ grants ∧
      (∀ g ∈ grants, g.1 = key → g.2 ≤ lvl) ∧
      ∀ req rv, ((checkProjectPermissions api key req rv groupID).val = none ↔ req ≤ lvl) := by
  have hload : (loadPermissionsByGroupID api groupID).val = (⟨grants⟩, none) := by
    unfold loadPermissionsByGroupID
    rw [hq]
  obtain ⟨htrue, hmem, hmax⟩ := ProjectPermission_maximum ⟨grants⟩ key hex
  refine ⟨((⟨grants⟩ : GroupPermissions).ProjectPermission key).1, ?_, hmem, hmax, ?_⟩
  · rw [hload]
    exact Prod.ext rfl htrue
  · intro req rv
    rw [checkProjectPermissions_val api key req rv groupID ⟨grants⟩ hload]
    by_cases hle : req ≤ ((⟨grants⟩ : GroupPermissions).ProjectPermission key).1
    · rw [if_pos ⟨htrue, hle⟩]
      exact ⟨fun _ => hle, fun _ => rfl⟩
    · rw [if_neg (fun hc => hle hc.2)]
      exact ⟨fun hc => (by cases hc), fun hc => absurd hc hle⟩

/-- Witness of C14: groups 7 and 8 grant "demo" at levels 4 and 7; a required level 7 is
satisfied and a required level 8 is not. -/
theorem loadPermissionsByGroupID_surfaces_maximum_witness :
    exampleTwoGrantsAPI.FindPermissionByGroupID [7, 8] = .ok [("demo", 4), ("demo", 7)] ∧
    (loadPermissionsByGroupID exampleTwoGrantsAPI [7, 8]).val.1.ProjectPermission "demo" =
      (7, true) ∧
    (checkProjectPermissions exampleTwoGrantsAPI "demo" 7 [] [7, 8]).val = none ∧
    (checkProjectPermissions exampleTwoGrantsAPI "demo" 8 [] [7, 8]).val ≠ none ∧
    ∃ lvl : Int,
      (loadPermissionsByGroupID exampleTwoGrantsAPI [7, 8]).val.1.ProjectPermission "demo" =
        (lvl, true) ∧
      (("demo", lvl) : String × Int) ∈ [("demo", 4), ("demo", 7)] ∧
      (∀ g ∈ ([("demo", 4), ("demo", 7)] : List (String × Int)), g.1 = "demo" → g.2 ≤ lvl) ∧
      ∀ req rv, ((checkProjectPermissions exampleTwoGrantsAPI "demo" req rv [7, 8]).val = none ↔
        req ≤ lvl) :=
  ⟨rfl, by decide, by decide, by decide,
    loadPermissionsByGroupID_surfaces_maximum exampleTwoGrantsAPI [7, 8]
      [("demo", 4), ("demo", 7)] "demo" rfl ⟨("demo", 4), by decide, rfl⟩⟩

/-- C15: the registry has exactly the seven keys `permProjectKey`, `permWorkflowName`,
`permGroupName`, `permModelID`, `permActionName`, `permActionBuiltinName` and
`permTemplateSlug`, bound respectively to the project, workflow, group, worker-model,
action, builtin-action and template-slug checkers; every other name, "groupName" among
them, has no binding. -/
theorem permissionFunc_registry (api : API) (fr : Free) :
    (permissionFunc api fr).map Prod.fst =
      ["permProjectKey", "permWorkflowName", "permGroupName", "permModelID", "permActionName",
        "permActionBuiltinName", "permTemplateSlug"] ∧
    (permissionFunc api fr).lookup "permProjectKey" = some (checkProjectPermissions api) ∧
    (permissionFunc api fr).lookup "permWorkflowName" = some checkWorkflowPermissions ∧
    (permissionFunc api fr).lookup "permGroupName" = some checkGroupPermissions ∧
    (permissionFunc api fr).lookup "permModelID" = some checkWorkerModelPermissions ∧
    (permissionFunc api fr).lookup "permActionName" = some checkActionPermissions ∧
    (permissionFunc api fr).lookup "permActionBuiltinName" =
      some checkActionBuiltinPermissions ∧
    (permissionFunc api fr).lookup "permTemplateSlug" =
      some (checkTemplateSlugPermissions api fr) ∧
    (permissionFunc api fr).lookup "groupName" = none ∧
    ∀ name, name ∉ ["permProjectKey", "permWorkflowName", "permGroupName", "permModelID",
        "permActionName", "permActionBuiltinName", "permTemplateSlug"] →
      (permissionFunc api fr).lookup name = none :=
  ⟨rfl, rfl, rfl, rfl, rfl, rfl, rfl, rfl, rfl,
    fun name h => lookup_eq_none_of_not_mem_keys (permissionFunc api fr) name h⟩

/-- Witness of C15: the route variable "id" is not a key of the registry. -/
theorem permissionFunc_registry_witness :
    "id" ∉ ["permProjectKey", "permWorkflowName", "permGroupName", "permModelID",
        "permActionName", "permActionBuiltinName", "permTemplateSlug"] ∧
    (permissionFunc exampleAPI exampleFree).lookup "id" = none :=
  ⟨by decide, (permissionFunc_registry exampleAPI exampleFree).2.2.2.2.2.2.2.2.2 "id"
    (by decide)⟩

theorem mem_of_lookup_eq_some {β : Type} (l : List (String × β)) (k : String) (v : β)
    (h : l.lookup k = some v) : (k, v) ∈ l := by
  induction l with
  | nil => cases h
  | cons p rest ih =>
    obtain ⟨k', w⟩ := p
    rw [List.lookup_cons] at h
    by_cases hk : k = k'
    · subst hk
      rw [beq_self_eq_true] at h
      cases h
      exact List.mem_cons_self _ _
    · rw [beq_false_of_ne hk] at h
      exact List.mem_cons_of_mem _ (ih h)

theorem lookup_ne_none_of_mem {β : Type} (l : List (String × β)) (k : String) (v : β)
    (h : (k, v) ∈ l) : l.lookup k ≠ none := by
  induction l with
  | nil => cases h
  | cons p rest ih =>
    obtain ⟨k', w⟩ := p
    rw [List.lookup_cons]
    by_cases hk : k = k'
    · subst hk
      rw [beq_self_eq_true]
      exact fun hc => by cases hc
    · rw [beq_false_of_ne hk]
      rcases List.mem_cons.1 h with he | hm
      · exact absurd (Prod.mk.inj he).1 hk
      · exact ih hm

/-- Indexing a map does not depend on the order in which its entries are listed. -/
theorem getVar_perm (rv rv2 : List (String × String)) (name : String)
    (hnodup : (rv.map Prod.fst).Nodup) (hperm : rv.Perm rv2) :
    getVar rv name = getVar rv2 name := by
  have hnodup2 : (rv2.map Prod.fst).Nodup := (hperm.map Prod.fst).nodup_iff.1 hnodup
  have key : ∀ (a b : List (String × String)), (a.map Prod.fst).Nodup → a.Perm b →
      ∀ v, a.lookup name = some v → b.lookup name = some v := by
    intro a b hna hab v hv
    have hmem : (name, v) ∈ b := hab.mem_iff.1 (mem_of_lookup_eq_some a name v hv)
    rcases hb : b.lookup name with _ | w
    · exact absurd hb (lookup_ne_none_of_mem b name v hmem)
    · have hw : (name, w) ∈ a := hab.mem_iff.2 (mem_of_lookup_eq_some b name w hb)
      rw [value_unique_of_nodup_keys a hna name v w (mem_of_lookup_eq_some a name v hv) hw]
  unfold getVar
  rcases h1 : rv.lookup name with _ | v
  · rcases h2 : rv2.lookup name with _ | w
    · rfl
    · rw [key rv2 rv hnodup2 hperm.symm w h2] at h1
      cases h1
  · rw [key rv rv2 hnodup hperm v h1]

/-- Every checker of the registry returns the same run for two listings of the same map. -/
theorem permissionFunc_checker_perm (api : API) (fr : Free) (key : String) (f : PermCheckFunc)
    (hf : (permissionFunc api fr).lookup key = some f) (value : String) (perm : Int)
    (rv rv2 : List (String × String)) (gids : List Int)
    (hnodup : (rv.map Prod.fst).Nodup) (hperm : rv.Perm rv2) :
    f value perm rv gids = f value perm rv2 gids := by
  have hmem := mem_of_lookup_eq_some _ _ _ hf
  simp only [permissionFunc, List.mem_cons, Prod.mk.injEq, List.mem_singleton,
    List.not_mem_nil, or_false] at hmem
  rcases hmem with ⟨_, h⟩ | ⟨_, h⟩ | ⟨_, h⟩ | ⟨_, h⟩ | ⟨_, h⟩ | ⟨_, h⟩ | ⟨_, h⟩
  · rw [h]; rfl
  · rw [h]; rfl
  · rw [h]; rfl
  · rw [h]; rfl
  · rw [h]; rfl
  · rw [h]; rfl
  · rw [h]
    unfold checkTemplateSlugPermissions
    rw [getVar_perm rv rv2 "groupName" hnodup hperm]

/-- A route variable bound to one of the five unconditional-denial keys is matched by the
registry with a checker that returns an error. -/
theorem permissionFunc_denial_key (api : API) (fr : Free) (key : String)
    (hk : key ∈ ["permWorkflowName", "permGroupName", "permModelID", "permActionName",
      "permActionBuiltinName"]) :
    ∃ f, (permissionFunc api fr).lookup key = some f ∧
      ∀ value perm rv gids, (f value perm rv gids).val ≠ none := by
  simp only [List.mem_cons, List.mem_singleton, List.not_mem_nil, or_false] at hk
  rcases hk with h | h | h | h | h
  · exact ⟨checkWorkflowPermissions, by rw [h]; rfl, fun _ _ _ _ hc => by cases hc⟩
  · exact ⟨checkGroupPermissions, by rw [h]; rfl, fun _ _ _ _ hc => by cases hc⟩
  · exact ⟨checkWorkerModelPermissions, by rw [h]; rfl, fun _ _ _ _ hc => by cases hc⟩
  · exact ⟨checkActionPermissions, by rw [h]; rfl, fun _ _ _ _ hc => by cases hc⟩
  · exact ⟨checkActionBuiltinPermissions, by rw [h]; rfl, fun _ _ _ _ hc => by cases hc⟩

/-- C16: when the route-variable map contains at least one of the keys `permWorkflowName`,
`permGroupName`, `permModelID`, `permActionName` or `permActionBuiltinName`,
`checkPermission` returns an error, for every required level, every caller and all
collaborators, whatever the other route variables are. -/
theorem checkPermission_denial_key_present (api : API) (fr : Free) (ctx : Context)
    (routeVar : List (String × String)) (permission : Int)
    (h : ∃ kv ∈ routeVar, kv.1 ∈ ["permWorkflowName", "permGroupName", "permModelID",
      "permActionName", "permActionBuiltinName"]) :
    ∃ e, (checkPermission api fr ctx routeVar permission).val = some e := by
  obtain ⟨kv, hkv, hk⟩ := h
  obtain ⟨f, hf, hdeny⟩ := permissionFunc_denial_key api fr kv.1 hk
  rcases hres : (checkPermission api fr ctx routeVar permission).val with _ | e
  · have hall := (checkPermissionLoop_val_none_iff api fr routeVar permission
      (GroupsToIDs ctx.Groups) routeVar).1 hres
    exact absurd (hall kv hkv f hf) (hdeny _ _ _ _)
  · exact ⟨e, rfl⟩

/-- Witness of C16: a route carrying `permGroupName` and `permTemplateSlug`; the template
checker alone would succeed for the caller, the route is denied. -/
theorem checkPermission_denial_key_present_witness :
    (checkTemplateSlugPermissions exampleAPI exampleFree "tmpl" 4
      [("groupName", "team"), ("permTemplateSlug", "tmpl"), ("permGroupName", "team")]
      [7]).val = none ∧
    ∃ e, (checkPermission exampleAPI exampleFree exampleCtx
      [("groupName", "team"), ("permTemplateSlug", "tmpl"), ("permGroupName", "team")] 4).val =
        some e :=
  ⟨by decide, checkPermission_denial_key_present exampleAPI exampleFree exampleCtx
    [("groupName", "team"), ("permTemplateSlug", "tmpl"), ("permGroupName", "team")] 4
    ⟨("permGroupName", "team"), by decide, by decide⟩⟩

/-- C17: with the collaborators fixed, whether `checkPermission` succeeds does not depend
on the order in which the route-variable map is visited: two listings of the same map
either both succeed or both fail. The reported error can depend on the order: the map
with `permWorkflowName` and `permGroupName` reports the workflow error in one order and
the group error in the other. -/
theorem checkPermission_order_independent (api : API) (fr : Free) (ctx : Context)
    (permission : Int) :
    (∀ rv rv2 : List (String × String), (rv.map Prod.fst).Nodup → rv.Perm rv2 →
      ((checkPermission api fr ctx rv permission).val = none ↔
        (checkPermission api fr ctx rv2 permission).val = none)) ∧
    (∃ rv rv2 : List (String × String), (rv.map Prod.fst).Nodup ∧ rv.Perm rv2 ∧
      (checkPermission api fr ctx rv permission).val ≠ none ∧
      (checkPermission api fr ctx rv2 permission).val ≠ none ∧
      (checkPermission api fr ctx rv permission).val ≠
        (checkPermission api fr ctx rv2 permission).val) := by
  constructor
  · have hdir : ∀ rv rv2 : List (String × String), (rv.map Prod.fst).Nodup → rv.Perm rv2 →
        (checkPermission api fr ctx rv permission).val = none →
          (checkPermission api fr ctx rv2 permission).val = none := by
      intro rv rv2 hnodup hperm hnone
      unfold checkPermission at hnone ⊢
      rw [checkPermissionLoop_val_none_iff] at hnone ⊢
      intro kv hkv f hf
      rw [← permissionFunc_checker_perm api fr kv.1 f hf kv.2 permission rv rv2
        (GroupsToIDs ctx.Groups) hnodup hperm]
      exact hnone kv (hperm.mem_iff.2 hkv) f hf
    intro rv rv2 hnodup hperm
    exact ⟨hdir rv rv2 hnodup hperm,
      hdir rv2 rv ((hperm.map Prod.fst).nodup_iff.1 hnodup) hperm.symm⟩
  · refine ⟨[("permWorkflowName", "w"), ("permGroupName", "g")],
      [("permGroupName", "g"), ("permWorkflowName", "w")], by decide,
      List.Perm.swap _ _ _, ?_, ?_, ?_⟩
    · intro hc
      cases hc
    · intro hc
      cases hc
    · intro hc
      have hmsg : ("not authorized for workflow w, missing project key value" : String) =
          "not authorized for group g" := congrArg Err.msg (Option.some.inj hc)
      exact absurd hmsg (by decide)

/-- Witness of C17: the route `{permProjectKey: demo, permGroupName: team}` is denied in
both visiting orders. -/
theorem checkPermission_order_independent_witness :
    ((checkPermission exampleAPI exampleFree exampleCtx
        [("permProjectKey", "demo"), ("permGroupName", "team")] 4).val = none ↔
      (checkPermission exampleAPI exampleFree exampleCtx
        [("permGroupName", "team"), ("permProjectKey", "demo")] 4).val = none) ∧
    (checkPermission exampleAPI exampleFree exampleCtx
        [("permProjectKey", "demo"), ("permGroupName", "team")] 4).val ≠ none :=
  ⟨(checkPermission_order_independent exampleAPI exampleFree exampleCtx 4).1
      [("permProjectKey", "demo"), ("permGroupName", "team")]
      [("permGroupName", "team"), ("permProjectKey", "demo")] (by decide)
      (List.Perm.swap _ _ _), by decide⟩

/-- C18: the run of `checkTemplateSlugPermissions` is the same for any two group-ID lists,
and the run of `checkProjectPermissions` is the same for any two route-variable maps. -/
theorem checkers_ignore_unused_arguments (api : API) (fr : Free) (value : String) (perm : Int)
    (routeVars routeVars2 : List (String × String)) (groupID groupID2 : List Int) :
    checkTemplateSlugPermissions api fr value perm routeVars groupID =
      checkTemplateSlugPermissions api fr value perm routeVars groupID2 ∧
    checkProjectPermissions api value perm routeVars groupID =
      checkProjectPermissions api value perm routeVars2 groupID :=
  ⟨rfl, rfl⟩

end Cds
